import Mathlib

/-!
Verification of the dual-modality index writer
(`llama_index/indices/multi_modal/base.py`, class `MultiModalVectorStoreIndex`).

The writer orchestrates two vector stores (a primary text store under the
default namespace and an image store under the "image" namespace), a document
store, and an in-memory index structure.  The Python methods embedded here are
`_add_nodes_to_index`, `_async_add_nodes_to_index`, `_get_node_with_embedding`,
`_aget_node_with_embedding`, `delete_ref_doc`, `__init__` and
`from_vector_store`.  External collaborators (embedding models, vector-store
backends, the document store, the index structure) are not part of the source
file; they are modelled from the contracts in section 6 of the specification.
-/

/-- Node identifiers and store-assigned identifiers are strings. -/
abbrev NodeId := String

/-- Embedding vectors, abstracted to integer lists (their contents are opaque
to the orchestration layer). -/
abbrev Embedding := List Int

/-- The dynamic kind of a node: a plain text node or an `ImageNode` instance.
The Python partition test `isinstance(node, ImageNode)` becomes a test of this
tag. -/
inductive NodeKind where
  | plainNode : NodeKind
  | imageNode : NodeKind
deriving DecidableEq, Repr

/-- A unit of content: stable identifier, kind tag, text payload (possibly
empty; `ImageNode` extends the text node type so it also carries text), an
optional parent reference-document id, and an optional embedding vector.
`node.copy()` in Python becomes a plain structure update here. -/
structure Node where
  nodeId : NodeId
  kind : NodeKind
  text : String
  refDocId : Option NodeId
  embedding : Option Embedding
deriving DecidableEq, Repr

/-- `isinstance(node, ImageNode)`. -/
def Node.isImageNode (n : Node) : Bool :=
  n.kind = NodeKind.imageNode

/-- A fresh copy of `n` carrying embedding `e` (the loop body of
`_get_node_with_embedding`). -/
def Node.setEmb (n : Node) (e : Embedding) : Node :=
  { n with embedding := some e }

/-- A fresh copy of `n` with the embedding removed (the mirroring loop body:
`node_without_embedding.embedding = None`). -/
def Node.stripEmb (n : Node) : Node :=
  { n with embedding := none }

/-- Modelled from the spec: a vector store honoring the contract
{add(nodes) -> ids, delete(doc_id), stores_text : bool}.  Its persisted set is
the list of nodes it has received. -/
structure VectorStore where
  storesText : Bool
  entries : List Node
deriving DecidableEq, Repr

/-- Modelled from the spec: `add(nodes)` appends the nodes to the persisted
set.  The ids the store returns are modelled separately (`Env.assignIds`). -/
def VectorStore.add (vs : VectorStore) (nodes : List Node) : VectorStore :=
  { vs with entries := vs.entries ++ nodes }

/-- Modelled from the spec: `delete(id)` removes every persisted node that
matches the id, whether the store is doc-granular (matching the reference
document id) or id-granular (matching the node id). -/
def VectorStore.delete (vs : VectorStore) (i : NodeId) : VectorStore :=
  { vs with entries :=
      vs.entries.filter (fun n => !(n.refDocId = some i || n.nodeId = i)) }

/-- Modelled from the spec: the index structure is a registry mapping node
identifier to store-assigned identifier (`nodes_dict`). -/
abbrev IndexStructDict := List (NodeId × NodeId)

/-- Lookup in the index-structure registry. -/
def dictLookup (d : IndexStructDict) (k : NodeId) : Option NodeId :=
  match d with
  | [] => none
  | (k0, v0) :: rest => if k0 = k then some v0 else dictLookup rest k

/-- Modelled from the spec: `index_struct.add_node(node, text_id)` registers
the node identifier under the store-assigned identifier (upsert). -/
def dictInsert (d : IndexStructDict) (k v : NodeId) : IndexStructDict :=
  if d.any (fun p => p.1 = k) then
    d.map (fun p => if p.1 = k then (k, v) else p)
  else
    d ++ [(k, v)]

/-- Modelled from the spec: `index_struct.delete(node_id)` removes the entry
for the node identifier. -/
def dictErase (d : IndexStructDict) (k : NodeId) : IndexStructDict :=
  d.filter (fun p => !(p.1 = k))

/-- Modelled from the spec: the document store is a registry of node content
keyed by node id. -/
abbrev DocStore := List Node

/-- Modelled from the spec: `add_documents([node], allow_update=True)` —
upsert: silently replaces an existing entry with the same id, otherwise
appends. -/
def docstoreAdd (ds : DocStore) (n : Node) : DocStore :=
  if ds.any (fun m => m.nodeId = n.nodeId) then
    ds.map (fun m => if m.nodeId = n.nodeId then n else m)
  else
    ds ++ [n]

/-- Modelled from the spec: `get_ref_doc_info(id)` — reverse lookup from a
logical document id to its constituent node ids; `none` when the id has no
entry. -/
def getRefDocInfo (ds : DocStore) (r : NodeId) : Option (List NodeId) :=
  let ids := (ds.filter (fun n => n.refDocId = some r)).map Node.nodeId
  if ids = [] then none else some ids

/-- Modelled from the spec: `delete_ref_doc(id, raise_error=False)` — removes
the logical document entries; a missing entry is not an error. -/
def docstoreDeleteRefDoc (ds : DocStore) (r : NodeId) : DocStore :=
  ds.filter (fun n => !(n.refDocId = some r))

/-- The name under which the primary vector store is registered
(`DEFAULT_VECTOR_STORE`). -/
def defaultStoreName : String := "default"

/-- The fixed namespace of the image vector store
(`MultiModalVectorStoreIndex.image_namespace`). -/
def imageNamespace : String := "image"

/-- The mutable state reachable from the writer through its storage context:
the two vector stores it registers, the index structure, the document store,
the persisted index-store snapshots, and the writer's store-nodes override
flag. -/
structure IndexState where
  primaryStore : VectorStore
  imageStore : VectorStore
  indexStruct : IndexStructDict
  docstore : DocStore
  indexStore : List IndexStructDict
  storeNodesOverride : Bool
deriving DecidableEq, Repr

/-- The external services the insertion path calls: the sync and async text
and image embedding functions (`none` models a raised exception), and the
store-assigned ids an `add`/`async_add` call on the named store returns for a
batch of nodes.  Modelled from the spec contracts of section 6. -/
structure Env where
  textEmbed : List Node → Option (List (NodeId × Embedding))
  imageEmbed : List Node → Option (List (NodeId × Embedding))
  atextEmbed : List Node → Option (List (NodeId × Embedding))
  aimageEmbed : List Node → Option (List (NodeId × Embedding))
  assignIds : String → List Node → List NodeId
  aassignIds : String → List Node → List NodeId

/-- Lookup of `id_to_embed_map[node.node_id]`. -/
def lookupEmb (m : List (NodeId × Embedding)) (k : NodeId) : Option Embedding :=
  match m with
  | [] => none
  | (k0, v0) :: rest => if k0 = k then some v0 else lookupEmb rest k

/-- The result-building loop of `_get_node_with_embedding`: attach the mapped
embedding to a fresh copy of every node; a node id missing from the map is the
KeyError case (`none`). -/
def attachEmbeddings (m : List (NodeId × Embedding)) : List Node → Option (List Node)
  | [] => some []
  | n :: ns =>
    match lookupEmb m n.nodeId, attachEmbeddings m ns with
    | some e, some rest => some (n.setEmb e :: rest)
    | _, _ => none

/-- `_get_node_with_embedding`: call the embedding function on the batch, then
attach the returned vectors to fresh copies of the nodes. -/
def getNodeWithEmbedding (embedFn : List Node → Option (List (NodeId × Embedding)))
    (nodes : List Node) : Option (List Node) :=
  match embedFn nodes with
  | none => none
  | some m => attachEmbeddings m nodes

/-- `_aget_node_with_embedding`: the asynchronous twin, identical once the
awaits are collapsed. -/
def agetNodeWithEmbedding (embedFn : List Node → Option (List (NodeId × Embedding)))
    (nodes : List Node) : Option (List Node) :=
  match embedFn nodes with
  | none => none
  | some m => attachEmbeddings m nodes

/-- The partition of the input batch collecting `ImageNode` instances
(`if isinstance(node, ImageNode)`); the single Python pass with two
independent tests equals two filters over the batch. -/
def imagePartition (nodes : List Node) : List Node :=
  nodes.filter (fun n => n.isImageNode)

/-- The partition of the input batch collecting nodes with non-empty text
(`if node.text`). -/
def textPartition (nodes : List Node) : List Node :=
  nodes.filter (fun n => !(n.text = ""))

/-- The mirroring condition of the insertion path:
`not self._vector_store.stores_text or self._store_nodes_override`. -/
def mirrorCond (s : IndexState) : Bool :=
  !s.primaryStore.storesText || s.storeNodesOverride

/-- The errors an insertion can raise: an exception or KeyError while
embedding the text partition, or while embedding the image partition. -/
inductive InsertError where
  | textEmbedFailed : InsertError
  | imageEmbedFailed : InsertError
deriving DecidableEq, Repr

/-- The observable calls an insertion or construction makes, in order. -/
inductive Event where
  | embedText : List Node → Event
  | embedImage : List Node → Event
  | addStore : String → List Node → Event
  | indexAdd : Node → NodeId → Event
  | docAdd : Node → Event
  | addVectorStoreEvt : String → Event
deriving DecidableEq, Repr

/-- Outcome of an insertion: the final state (Python mutates in place, so a
raised exception still leaves the mutations made so far), the error if one was
raised, and the trace of external calls. -/
structure InsertResult where
  state : IndexState
  error : Option InsertError
  trace : List Event
deriving DecidableEq, Repr

/-- One iteration of the mirroring loop: strip the embedding from a fresh
copy, register it in the index structure under the store-assigned id, and
upsert it into the document store. -/
def mirrorOne (s : IndexState) (p : Node × NodeId) : IndexState :=
  { s with
    indexStruct := dictInsert s.indexStruct p.1.stripEmb.nodeId p.2
    docstore := docstoreAdd s.docstore p.1.stripEmb }

/-- The mirroring loop over all (node, store-assigned id) pairs. -/
def mirrorFold (s : IndexState) (pairs : List (Node × NodeId)) : IndexState :=
  pairs.foldl mirrorOne s

/-- The trace events the mirroring loop emits. -/
def expectedMirror (pairs : List (Node × NodeId)) : List Event :=
  pairs.flatMap (fun p => [Event.indexAdd p.1.stripEmb p.2, Event.docAdd p.1.stripEmb])

/-- The body of `_add_nodes_to_index` after the empty-batch early return,
applied to the two partitions of the batch. -/
def runInsertBody (env : Env) (s : IndexState)
    (imageNodes textNodes : List Node) : InsertResult :=
  match getNodeWithEmbedding env.textEmbed textNodes with
  | none => ⟨s, some InsertError.textEmbedFailed, [Event.embedText textNodes]⟩
  | some embTexts =>
    let newTextIds := env.assignIds defaultStoreName embTexts
    let s1 := { s with primaryStore := s.primaryStore.add embTexts }
    match getNodeWithEmbedding env.imageEmbed imageNodes with
    | none =>
      ⟨s1, some InsertError.imageEmbedFailed,
        [Event.embedText textNodes, Event.addStore defaultStoreName embTexts,
         Event.embedImage imageNodes]⟩
    | some embImgs =>
      let newImgIds := env.assignIds imageNamespace embImgs
      let s2 := { s1 with imageStore := s1.imageStore.add embImgs }
      let allNodes := embTexts ++ embImgs
      let allNewIds := newTextIds ++ newImgIds
      let baseTrace :=
        [Event.embedText textNodes, Event.addStore defaultStoreName embTexts,
         Event.embedImage imageNodes, Event.addStore imageNamespace embImgs]
      if mirrorCond s2 then
        let pairs := allNodes.zip allNewIds
        ⟨mirrorFold s2 pairs, none, baseTrace ++ expectedMirror pairs⟩
      else
        ⟨s2, none, baseTrace⟩

/-- `_add_nodes_to_index`: empty-batch early return, partition, embed the text
partition, persist it to the primary store, embed the image partition, persist
it to the image-namespace store, then mirror when the primary store does not
store text or the override is set. -/
def addNodesToIndex (env : Env) (s : IndexState) (nodes : List Node) : InsertResult :=
  if nodes = [] then ⟨s, none, []⟩
  else runInsertBody env s (imagePartition nodes) (textPartition nodes)

/-- The body of `_async_add_nodes_to_index`: identical to the synchronous body
except that it awaits the asynchronous embedding functions and store adds. -/
def arunInsertBody (env : Env) (s : IndexState)
    (imageNodes textNodes : List Node) : InsertResult :=
  match agetNodeWithEmbedding env.atextEmbed textNodes with
  | none => ⟨s, some InsertError.textEmbedFailed, [Event.embedText textNodes]⟩
  | some embTexts =>
    let newTextIds := env.aassignIds defaultStoreName embTexts
    let s1 := { s with primaryStore := s.primaryStore.add embTexts }
    match agetNodeWithEmbedding env.aimageEmbed imageNodes with
    | none =>
      ⟨s1, some InsertError.imageEmbedFailed,
        [Event.embedText textNodes, Event.addStore defaultStoreName embTexts,
         Event.embedImage imageNodes]⟩
    | some embImgs =>
      let newImgIds := env.aassignIds imageNamespace embImgs
      let s2 := { s1 with imageStore := s1.imageStore.add embImgs }
      let allNodes := embTexts ++ embImgs
      let allNewIds := newTextIds ++ newImgIds
      let baseTrace :=
        [Event.embedText textNodes, Event.addStore defaultStoreName embTexts,
         Event.embedImage imageNodes, Event.addStore imageNamespace embImgs]
      if mirrorCond s2 then
        let pairs := allNodes.zip allNewIds
        ⟨mirrorFold s2 pairs, none, baseTrace ++ expectedMirror pairs⟩
      else
        ⟨s2, none, baseTrace⟩

/-- `_async_add_nodes_to_index`: the asynchronous twin of
`addNodesToIndex`. -/
def asyncAddNodesToIndex (env : Env) (s : IndexState) (nodes : List Node) : InsertResult :=
  if nodes = [] then ⟨s, none, []⟩
  else arunInsertBody env s (imagePartition nodes) (textPartition nodes)

/-- The per-node cleanup performed inside the store loop of `delete_ref_doc`:
when `self._store_nodes_override or self._vector_store.stores_text`, look up
the constituent node ids in the document store and, if found, delete each from
the index structure and from the primary vector store. -/
def cleanupStep (s : IndexState) (r : NodeId) : IndexState :=
  if s.storeNodesOverride || s.primaryStore.storesText then
    match getRefDocInfo s.docstore r with
    | none => s
    | some nodeIds =>
      nodeIds.foldl
        (fun st nid =>
          { st with
            indexStruct := dictErase st.indexStruct nid
            primaryStore := st.primaryStore.delete nid })
        s
  else s

/-- `delete_ref_doc(ref_doc_id, delete_from_docstore)`: iterate over the
registered vector stores (the primary store under the default name, then the
image store — the two namespaces this writer registers in its storage
context), deleting the logical id from each and running the conditional
per-node cleanup inside the loop; then optionally remove the logical document
from the document store (a missing entry is not an error); finally persist the
index structure to the index store unconditionally. -/
def deleteRefDoc (s : IndexState) (r : NodeId) (deleteFromDocstore : Bool) : IndexState :=
  let s1 := cleanupStep { s with primaryStore := s.primaryStore.delete r } r
  let s2 := cleanupStep { s1 with imageStore := s1.imageStore.delete r } r
  let s3 :=
    if deleteFromDocstore then
      { s2 with docstore := docstoreDeleteRefDoc s2.docstore r }
    else s2
  { s3 with indexStore := s3.indexStore ++ [s3.indexStruct] }

/-- The configuration of an embedding model as construction sees it: whether
`resolve_embed_model` produced a `MultiModalEmbedding` instance. -/
structure EmbedModelCfg where
  isMultiModal : Bool
deriving DecidableEq, Repr

/-- The fatal configuration errors of construction: the embedder is not a
multi-modal embedding model (`assert isinstance(..., MultiModalEmbedding)`),
or `from_vector_store` was given a store that does not store text
(`ValueError`). -/
inductive ConfigError where
  | notMultiModalEmbedding : ConfigError
  | storeDoesNotStoreText : ConfigError
deriving DecidableEq, Repr

/-- `SimpleVectorStore()`: the default in-memory store; it does not store
text. -/
def simpleVectorStore : VectorStore :=
  { storesText := false, entries := [] }

/-- A storage context as construction receives it: a primary vector store
under the default name and, when present, a store under the image
namespace. -/
structure StorageCtx where
  primaryStore : VectorStore
  imageStoreOpt : Option VectorStore
deriving DecidableEq, Repr

/-- `__init__`: resolve the image embed model and assert it is multi-modal
before anything else; default the storage context; register the caller's
image vector store under the image namespace when given; register a fresh
`SimpleVectorStore` under the image namespace when it is still absent; then
hand off to the base class.  The trace records every store registered in the
storage context; a failed assertion registers none. -/
def initWriter (imageEmbedModel : EmbedModelCfg) (storageCtx : Option StorageCtx)
    (imageVectorStore : Option VectorStore) (storeNodesOverride : Bool) :
    Except ConfigError IndexState × List Event :=
  if !imageEmbedModel.isMultiModal then
    (Except.error ConfigError.notMultiModalEmbedding, [])
  else
    let ctx0 := storageCtx.getD { primaryStore := simpleVectorStore, imageStoreOpt := none }
    let (ctx1, tr1) :=
      match imageVectorStore with
      | some ivs =>
        ({ ctx0 with imageStoreOpt := some ivs }, [Event.addVectorStoreEvt imageNamespace])
      | none => (ctx0, [])
    let (ctx2, tr2) :=
      match ctx1.imageStoreOpt with
      | none =>
        ({ ctx1 with imageStoreOpt := some simpleVectorStore },
         tr1 ++ [Event.addVectorStoreEvt imageNamespace])
      | some _ => (ctx1, tr1)
    (Except.ok
      { primaryStore := ctx2.primaryStore
        imageStore := ctx2.imageStoreOpt.getD simpleVectorStore
        indexStruct := []
        docstore := []
        indexStore := []
        storeNodesOverride := storeNodesOverride },
     tr2)

/-- `from_vector_store`: raise a `ValueError` immediately when the given store
does not store text; otherwise build a storage context around it and
construct the writer. -/
def fromVectorStore (vectorStore : VectorStore) (imageVectorStore : Option VectorStore)
    (imageEmbedModel : EmbedModelCfg) : Except ConfigError IndexState × List Event :=
  if !vectorStore.storesText then
    (Except.error ConfigError.storeDoesNotStoreText, [])
  else
    initWriter imageEmbedModel
      (some { primaryStore := vectorStore, imageStoreOpt := none })
      imageVectorStore false

/-- The mirror-write events (index-structure registrations and document-store
upserts) of a trace. -/
def mirrorWrites (tr : List Event) : List Event :=
  tr.filter (fun e =>
    match e with
    | Event.indexAdd _ _ => true
    | Event.docAdd _ => true
    | _ => false)

/-- An event never mentions a node carrying a non-null embedding in a
mirror-write position. -/
def embeddingFreeEvent : Event → Prop
  | Event.indexAdd n _ => n.embedding = none
  | Event.docAdd n => n.embedding = none
  | _ => True

/-! ### Helper lemmas about the insertion path -/

/-- The empty-batch early return of the synchronous insertion. -/
theorem addNodes_nil (env : Env) (s : IndexState) :
    addNodesToIndex env s [] = ⟨s, none, []⟩ := rfl

/-- A non-empty batch goes through the insertion body applied to the two
partitions. -/
theorem addNodes_ne (env : Env) (s : IndexState) (nodes : List Node)
    (h : nodes ≠ []) :
    addNodesToIndex env s nodes =
      runInsertBody env s (imagePartition nodes) (textPartition nodes) := by
  simp [addNodesToIndex, h]

/-- A text-embedding failure returns the state untouched. -/
theorem runBody_textFail (env : Env) (s : IndexState) (im tn : List Node)
    (ht : getNodeWithEmbedding env.textEmbed tn = none) :
    runInsertBody env s im tn =
      ⟨s, some InsertError.textEmbedFailed, [Event.embedText tn]⟩ := by
  unfold runInsertBody
  rw [ht]

/-- An image-embedding failure returns after the text partition has been
persisted to the primary store. -/
theorem runBody_imageFail (env : Env) (s : IndexState) (im tn embTexts : List Node)
    (ht : getNodeWithEmbedding env.textEmbed tn = some embTexts)
    (hi : getNodeWithEmbedding env.imageEmbed im = none) :
    runInsertBody env s im tn =
      ⟨{ s with primaryStore := s.primaryStore.add embTexts },
        some InsertError.imageEmbedFailed,
        [Event.embedText tn, Event.addStore defaultStoreName embTexts,
         Event.embedImage im]⟩ := by
  unfold runInsertBody
  rw [ht, hi]

/-- The successful path: persist both embedded partitions, then mirror when
the condition holds. -/
theorem runBody_ok (env : Env) (s : IndexState) (im tn embTexts embImgs : List Node)
    (ht : getNodeWithEmbedding env.textEmbed tn = some embTexts)
    (hi : getNodeWithEmbedding env.imageEmbed im = some embImgs) :
    runInsertBody env s im tn =
      if mirrorCond s then
        ⟨mirrorFold
            { s with primaryStore := s.primaryStore.add embTexts,
                     imageStore := s.imageStore.add embImgs }
            ((embTexts ++ embImgs).zip
              (env.assignIds defaultStoreName embTexts ++
                env.assignIds imageNamespace embImgs)),
          none,
          [Event.embedText tn, Event.addStore defaultStoreName embTexts,
           Event.embedImage im, Event.addStore imageNamespace embImgs] ++
            expectedMirror ((embTexts ++ embImgs).zip
              (env.assignIds defaultStoreName embTexts ++
                env.assignIds imageNamespace embImgs))⟩
      else
        ⟨{ s with primaryStore := s.primaryStore.add embTexts,
                  imageStore := s.imageStore.add embImgs },
          none,
          [Event.embedText tn, Event.addStore defaultStoreName embTexts,
           Event.embedImage im, Event.addStore imageNamespace embImgs]⟩ := by
  unfold runInsertBody
  rw [ht, hi]
  rfl

/-- The mirroring loop never touches the vector stores, the index store, or
the override flag. -/
theorem mirrorFold_frame (pairs : List (Node × NodeId)) (s : IndexState) :
    (mirrorFold s pairs).primaryStore = s.primaryStore ∧
    (mirrorFold s pairs).imageStore = s.imageStore ∧
    (mirrorFold s pairs).indexStore = s.indexStore ∧
    (mirrorFold s pairs).storeNodesOverride = s.storeNodesOverride := by
  induction pairs generalizing s with
  | nil => exact ⟨rfl, rfl, rfl, rfl⟩
  | cons p ps ih =>
    simpa [mirrorFold, mirrorOne] using ih (mirrorOne s p)

/-- An upsert into the document store only adds the upserted node. -/
theorem docstoreAdd_mem (ds : DocStore) (n m : Node) (h : m ∈ docstoreAdd ds n) :
    m ∈ ds ∨ m = n := by
  unfold docstoreAdd at h
  split at h
  · rcases List.mem_map.mp h with ⟨x, hx, hmx⟩
    by_cases hxe : x.nodeId = n.nodeId
    · right
      simp only [hxe, if_pos] at hmx
      exact hmx.symm
    · left
      simp only [hxe, if_neg, ite_false] at hmx
      exact hmx ▸ hx
  · rcases List.mem_append.mp h with h1 | h1
    · exact Or.inl h1
    · right
      simpa using h1

/-- Members of the document store after the mirroring loop were already there
or are stripped copies of mirrored pair nodes. -/
theorem mirrorFold_docstore_mem (pairs : List (Node × NodeId)) (s : IndexState)
    (m : Node) (hm : m ∈ (mirrorFold s pairs).docstore) :
    m ∈ s.docstore ∨ ∃ p ∈ pairs, m = p.1.stripEmb := by
  induction pairs generalizing s with
  | nil => exact Or.inl hm
  | cons p ps ih =>
    rcases ih (mirrorOne s p) (by simpa [mirrorFold] using hm) with h | ⟨q, hq, hmq⟩
    · rcases docstoreAdd_mem s.docstore p.1.stripEmb m h with h1 | h1
      · exact Or.inl h1
      · exact Or.inr ⟨p, by simp, h1⟩
    · exact Or.inr ⟨q, by simp [hq], hmq⟩

/-- Membership in the image partition. -/
theorem mem_imagePartition (nodes : List Node) (m : Node) :
    m ∈ imagePartition nodes ↔ m ∈ nodes ∧ m.isImageNode = true := by
  simp [imagePartition, List.mem_filter]

/-- Membership in the text partition. -/
theorem mem_textPartition (nodes : List Node) (m : Node) :
    m ∈ textPartition nodes ↔ m ∈ nodes ∧ m.text ≠ "" := by
  simp [textPartition, List.mem_filter]

/-- Every node given to the embedding-attachment loop resurfaces as a fresh
copy carrying the embedding the map holds for its id. -/
theorem attachEmbeddings_mem (m : List (NodeId × Embedding)) (l l' : List Node)
    (h : attachEmbeddings m l = some l') (x : Node) (hx : x ∈ l) :
    ∃ e, lookupEmb m x.nodeId = some e ∧ x.setEmb e ∈ l' := by
  induction l generalizing l' with
  | nil => cases hx
  | cons y ys ih =>
    unfold attachEmbeddings at h
    rcases hy : lookupEmb m y.nodeId with _ | e
    · rw [hy] at h; cases h
    · rw [hy] at h
      rcases hrest : attachEmbeddings m ys with _ | rest
      · rw [hrest] at h; cases h
      · rw [hrest] at h
        injection h with h
        subst h
        rcases List.mem_cons.mp hx with hxy | hxys
        · subst hxy
          exact ⟨e, hy, List.mem_cons_self _ _⟩
        · rcases ih rest hrest hxys with ⟨e1, he1, hm1⟩
          exact ⟨e1, he1, List.mem_cons_of_mem _ hm1⟩

/-- The final state of a successful insertion of a non-empty batch: both
embedded partitions appended to their stores, no error. -/
theorem addNodes_ok_state (env : Env) (s : IndexState) (nodes embTexts embImgs : List Node)
    (hne : nodes ≠ [])
    (ht : getNodeWithEmbedding env.textEmbed (textPartition nodes) = some embTexts)
    (hi : getNodeWithEmbedding env.imageEmbed (imagePartition nodes) = some embImgs) :
    (addNodesToIndex env s nodes).state.primaryStore.entries
        = s.primaryStore.entries ++ embTexts ∧
    (addNodesToIndex env s nodes).state.imageStore.entries
        = s.imageStore.entries ++ embImgs ∧
    (addNodesToIndex env s nodes).error = none := by
  rw [addNodes_ne env s nodes hne,
    runBody_ok env s (imagePartition nodes) (textPartition nodes) embTexts embImgs ht hi]
  by_cases hc : mirrorCond s = true
  · rw [if_pos hc]
    have hfr := mirrorFold_frame
      ((embTexts ++ embImgs).zip
        (env.assignIds defaultStoreName embTexts ++ env.assignIds imageNamespace embImgs))
      { s with primaryStore := s.primaryStore.add embTexts,
               imageStore := s.imageStore.add embImgs }
    exact ⟨by rw [hfr.1]; rfl, by rw [hfr.2.1]; rfl, rfl⟩
  · rw [if_neg hc]
    exact ⟨rfl, rfl, rfl⟩

/-! ### Helper lemmas about the deletion path -/

/-- A list whose positive filter is empty survives the negative filter
whole. -/
theorem filter_keep_of_filter_nil {α : Type} (p : α → Bool) (l : List α)
    (h : l.filter p = []) : l.filter (fun a => !(p a)) = l := by
  induction l with
  | nil => rfl
  | cons x xs ih =>
    cases hx : p x with
    | false =>
      rw [List.filter_cons_of_neg (by simp [hx])] at h
      rw [List.filter_cons_of_pos (by simp [hx]), ih h]
    | true =>
      rw [List.filter_cons_of_pos (by simp [hx])] at h
      cases h

/-- A failed reverse lookup means no stored node carries the logical id. -/
theorem getRefDocInfo_none (ds : DocStore) (r : NodeId)
    (h : getRefDocInfo ds r = none) :
    ds.filter (fun n => n.refDocId = some r) = [] := by
  simp only [getRefDocInfo] at h
  split at h
  case isTrue hc => exact List.map_eq_nil_iff.mp hc
  case isFalse hc => cases h

/-- Removing a logical document that the document store does not hold leaves
the document store unchanged (idempotent deletion). -/
theorem docstoreDeleteRefDoc_of_none (ds : DocStore) (r : NodeId)
    (h : getRefDocInfo ds r = none) :
    docstoreDeleteRefDoc ds r = ds := by
  unfold docstoreDeleteRefDoc
  exact filter_keep_of_filter_nil (fun n => n.refDocId = some r) ds (getRefDocInfo_none ds r h)

/-- When the reverse lookup finds nothing, the per-node cleanup does
nothing. -/
theorem cleanupStep_of_none (st : IndexState) (r : NodeId)
    (h : getRefDocInfo st.docstore r = none) : cleanupStep st r = st := by
  unfold cleanupStep
  split
  · rw [h]
  · rfl

/-- Deleting a logical document id that the document store does not know:
the two store-level deletes run, the cleanup and document-store removal do
nothing, and the index structure is persisted unconditionally. -/
theorem deleteRefDoc_of_missing (s : IndexState) (r : NodeId) (b : Bool)
    (h : getRefDocInfo s.docstore r = none) :
    deleteRefDoc s r b =
      { s with primaryStore := s.primaryStore.delete r,
               imageStore := s.imageStore.delete r,
               indexStore := s.indexStore ++ [s.indexStruct] } := by
  have h1 : cleanupStep { s with primaryStore := s.primaryStore.delete r } r
      = { s with primaryStore := s.primaryStore.delete r } :=
    cleanupStep_of_none _ _ h
  have h2 : cleanupStep { s with primaryStore := s.primaryStore.delete r,
                                 imageStore := s.imageStore.delete r } r
      = { s with primaryStore := s.primaryStore.delete r,
                 imageStore := s.imageStore.delete r } :=
    cleanupStep_of_none _ _ h
  have h3 : docstoreDeleteRefDoc s.docstore r = s.docstore :=
    docstoreDeleteRefDoc_of_none _ _ h
  simp only [deleteRefDoc]
  rw [h1]
  dsimp only
  rw [h2]
  cases b with
  | false => rfl
  | true => simp [h3]

/-! ### Further list and event lemmas -/

/-- Erasing an element that a filter predicate rejects does not change the
filtered list. -/
theorem filter_erase_of_not (l : List Node) (n : Node) (p : Node → Bool)
    (h : p n = false) : (l.erase n).filter p = l.filter p := by
  induction l with
  | nil => rfl
  | cons x xs ih =>
    rw [List.erase_cons]
    by_cases hx : (x == n) = true
    · rw [if_pos hx]
      have hxn : x = n := eq_of_beq hx
      rw [List.filter_cons_of_neg (by simp [hxn, h])]
    · rw [if_neg hx]
      cases hpx : p x with
      | false =>
        rw [List.filter_cons_of_neg (by simp [hpx]),
          List.filter_cons_of_neg (by simp [hpx]), ih]
      | true =>
        rw [List.filter_cons_of_pos (by simp [hpx]),
          List.filter_cons_of_pos (by simp [hpx]), ih]

/-- Every mirrored pair contributes its registration and its upsert event. -/
theorem expectedMirror_mem (pairs : List (Node × NodeId)) (p : Node × NodeId)
    (hp : p ∈ pairs) :
    Event.indexAdd p.1.stripEmb p.2 ∈ expectedMirror pairs ∧
    Event.docAdd p.1.stripEmb ∈ expectedMirror pairs := by
  unfold expectedMirror
  exact ⟨List.mem_flatMap.mpr ⟨p, hp, by simp⟩,
    List.mem_flatMap.mpr ⟨p, hp, by simp⟩⟩

/-- Every event of the mirroring loop carries an embedding-free node. -/
theorem expectedMirror_embFree (pairs : List (Node × NodeId)) (ev : Event)
    (hev : ev ∈ expectedMirror pairs) : embeddingFreeEvent ev := by
  unfold expectedMirror at hev
  rcases List.mem_flatMap.mp hev with ⟨p, _, hev2⟩
  simp only [List.mem_cons, List.not_mem_nil, or_false] at hev2
  rcases hev2 with h | h
  · subst h
    exact rfl
  · subst h
    exact rfl

/-! ### Concrete fixtures used by the witnesses and counterexamples -/

/-- A plain text node. -/
def nodeHello : Node :=
  { nodeId := "a", kind := NodeKind.plainNode, text := "hello",
    refDocId := some "r", embedding := none }

/-- An image node that also carries a caption. -/
def nodeCat : Node :=
  { nodeId := "b", kind := NodeKind.imageNode, text := "a cat",
    refDocId := some "r", embedding := none }

/-- A plain node with empty text: it belongs to neither partition. -/
def nodeBlank : Node :=
  { nodeId := "c", kind := NodeKind.plainNode, text := "",
    refDocId := some "r", embedding := none }

/-- An environment whose embedding calls all succeed, whose async variants
equal the sync ones, and whose stores assign the node ids themselves. -/
def envTest : Env :=
  { textEmbed := fun ns => some (ns.map (fun n => (n.nodeId, [1])))
    imageEmbed := fun ns => some (ns.map (fun n => (n.nodeId, [2])))
    atextEmbed := fun ns => some (ns.map (fun n => (n.nodeId, [1])))
    aimageEmbed := fun ns => some (ns.map (fun n => (n.nodeId, [2])))
    assignIds := fun _ ns => ns.map (fun n => n.nodeId)
    aassignIds := fun _ ns => ns.map (fun n => n.nodeId) }

/-- An environment whose image-embedding call raises. -/
def envImageFail : Env :=
  { textEmbed := fun ns => some (ns.map (fun n => (n.nodeId, [1])))
    imageEmbed := fun _ => none
    atextEmbed := fun ns => some (ns.map (fun n => (n.nodeId, [1])))
    aimageEmbed := fun _ => none
    assignIds := fun _ ns => ns.map (fun n => n.nodeId)
    aassignIds := fun _ ns => ns.map (fun n => n.nodeId) }

/-- An empty writer state over two fresh simple stores: the primary store does
not store text and the override is off, so mirroring is active. -/
def stateEmpty : IndexState :=
  { primaryStore := simpleVectorStore, imageStore := simpleVectorStore,
    indexStruct := [], docstore := [], indexStore := [], storeNodesOverride := false }

/-- The text-embedded copies of the test batch. -/
def embTextsTest : List Node := [nodeHello.setEmb [1], nodeCat.setEmb [1]]

/-- The image-embedded copies of the test batch. -/
def embImgsTest : List Node := [nodeCat.setEmb [2]]

/-- A state after mirroring was active for one node: the primary store does
not store text, the override is off, the document store holds the stripped
copy of node n1 under logical id r, and the index structure maps n1 to the
store-assigned id v1. -/
def stateMirrored : IndexState :=
  { primaryStore :=
      { storesText := false,
        entries := [{ nodeId := "n1", kind := NodeKind.plainNode, text := "hello",
                      refDocId := some "r", embedding := some [1] }] }
    imageStore := simpleVectorStore
    indexStruct := [("n1", "v1")]
    docstore := [{ nodeId := "n1", kind := NodeKind.plainNode, text := "hello",
                   refDocId := some "r", embedding := none }]
    indexStore := []
    storeNodesOverride := false }

/-! ### The claims -/

/-- C9: Calling Insert with an empty sequence of nodes is a no-op that returns
immediately: the synchronous and asynchronous entry points both leave the
state untouched, report no error, and make no external call at all (empty
trace, so in particular no embedding function is invoked and the vector
stores, index structure and document store are unchanged). -/
theorem c9_empty_insert_noop (env : Env) (s : IndexState) :
    addNodesToIndex env s [] = ⟨s, none, []⟩ ∧
    asyncAddNodesToIndex env s [] = ⟨s, none, []⟩ :=
  ⟨rfl, rfl⟩

/-- C5: Construction with an embedding model that is not multi-modal fails
immediately with a configuration error and registers no store (empty trace);
the from-vector-store factory fails immediately with a configuration error
when the given primary store does not retain text. -/
theorem c5_construction_config_errors :
    (∀ (m : EmbedModelCfg) (sc : Option StorageCtx) (ivs : Option VectorStore) (ov : Bool),
      m.isMultiModal = false →
      initWriter m sc ivs ov = (Except.error ConfigError.notMultiModalEmbedding, [])) ∧
    (∀ (vs : VectorStore) (ivs : Option VectorStore) (m : EmbedModelCfg),
      vs.storesText = false →
      fromVectorStore vs ivs m = (Except.error ConfigError.storeDoesNotStoreText, [])) := by
  constructor
  · intro m sc ivs ov h
    simp [initWriter, h]
  · intro vs ivs m h
    simp [fromVectorStore, h]

/-- Witness for C5 at concrete configurations. -/
theorem c5_construction_config_errors_witness :
    initWriter { isMultiModal := false } none none false
        = (Except.error ConfigError.notMultiModalEmbedding, []) ∧
    fromVectorStore simpleVectorStore none { isMultiModal := true }
        = (Except.error ConfigError.storeDoesNotStoreText, []) :=
  ⟨c5_construction_config_errors.1 { isMultiModal := false } none none false rfl,
   c5_construction_config_errors.2 simpleVectorStore none { isMultiModal := true } rfl⟩

/-- C7: When the asynchronous embedding functions and store add calls agree
with their synchronous counterparts, the asynchronous insert entry point is
exactly the synchronous one: same final state of the vector stores, index
structure and document store, same error, same call sequence, for every input
batch and starting state. -/
theorem c7_async_matches_sync (env : Env) (s : IndexState) (nodes : List Node)
    (h1 : env.atextEmbed = env.textEmbed)
    (h2 : env.aimageEmbed = env.imageEmbed)
    (h3 : env.aassignIds = env.assignIds) :
    asyncAddNodesToIndex env s nodes = addNodesToIndex env s nodes := by
  unfold asyncAddNodesToIndex addNodesToIndex arunInsertBody runInsertBody
    agetNodeWithEmbedding getNodeWithEmbedding
  rw [h1, h2, h3]

/-- Witness for C7 at a concrete environment, state and batch. -/
theorem c7_async_matches_sync_witness :
    asyncAddNodesToIndex envTest stateEmpty [nodeHello, nodeCat]
      = addNodesToIndex envTest stateEmpty [nodeHello, nodeCat] :=
  c7_async_matches_sync envTest stateEmpty [nodeHello, nodeCat] rfl rfl rfl

/-- C1: evaluation of `delete_ref_doc` at a state where mirroring was active
for the primary store (it does not store text, the override is off) and the
document store reverse index knows the logical id r with constituent node id
n1.  The claim says the writer must then remove n1 from the index structure
and the primary store individually; the code instead guards the cleanup with
`store_nodes_override or stores_text` — the inverse of the mirroring
condition — so the cleanup is skipped and the index structure keeps its
orphaned entry. -/
theorem c1_delete_cleanup_skipped :
    mirrorCond stateMirrored = true ∧
    stateMirrored.storeNodesOverride = false ∧
    stateMirrored.primaryStore.storesText = false ∧
    getRefDocInfo stateMirrored.docstore "r" = some ["n1"] ∧
    (deleteRefDoc stateMirrored "r" false).indexStruct = [("n1", "v1")] ∧
    dictLookup (deleteRefDoc stateMirrored "r" false).indexStruct "n1" = some "v1" := by
  decide

/-- C8: Deleting a logical document id that has no entry in the document
store raises no error (the function is total): the missing reverse lookup is
treated as nothing further to clean up — the document store and the index
structure are untouched — and with delete-from-docstore set the document-store
removal of the missing entry is likewise a no-op; only the per-store deletes
and the unconditional index-structure persist happen. -/
theorem c8_delete_missing_id_noop (s : IndexState) (r : NodeId) (b : Bool)
    (h : getRefDocInfo s.docstore r = none) :
    (deleteRefDoc s r b).docstore = s.docstore ∧
    (deleteRefDoc s r b).indexStruct = s.indexStruct ∧
    deleteRefDoc s r b =
      { s with primaryStore := s.primaryStore.delete r,
               imageStore := s.imageStore.delete r,
               indexStore := s.indexStore ++ [s.indexStruct] } := by
  rw [deleteRefDoc_of_missing s r b h]
  exact ⟨rfl, rfl, rfl⟩

/-- Witness for C8: deleting an unknown logical id from a populated state. -/
theorem c8_delete_missing_id_noop_witness :
    (deleteRefDoc stateMirrored "x" true).docstore = stateMirrored.docstore ∧
    (deleteRefDoc stateMirrored "x" true).indexStruct = stateMirrored.indexStruct ∧
    deleteRefDoc stateMirrored "x" true =
      { stateMirrored with
          primaryStore := stateMirrored.primaryStore.delete "x",
          imageStore := stateMirrored.imageStore.delete "x",
          indexStore := stateMirrored.indexStore ++ [stateMirrored.indexStruct] } :=
  c8_delete_missing_id_noop stateMirrored "x" true (by decide)

/-- C10: A node that is not image-bearing and has empty text lands in neither
partition, and its presence in the batch changes nothing: the run on the batch
equals the run on the batch with the node removed (same stores, same mirrors,
same trace, no error attributable to it), provided something else remains in
the batch. -/
theorem c10_blank_node_dropped (env : Env) (s : IndexState) (nodes : List Node)
    (n : Node) (hn : n ∈ nodes) (hni : n.isImageNode = false) (hnt : n.text = "")
    (hrest : nodes.erase n ≠ []) :
    n ∉ imagePartition nodes ∧ n ∉ textPartition nodes ∧
    imagePartition (nodes.erase n) = imagePartition nodes ∧
    textPartition (nodes.erase n) = textPartition nodes ∧
    addNodesToIndex env s nodes = addNodesToIndex env s (nodes.erase n) := by
  have himgeq : imagePartition (nodes.erase n) = imagePartition nodes :=
    filter_erase_of_not nodes n (fun m => m.isImageNode) hni
  have htexteq : textPartition (nodes.erase n) = textPartition nodes :=
    filter_erase_of_not nodes n (fun m => !(m.text = "")) (by simp [hnt])
  refine ⟨?_, ?_, himgeq, htexteq, ?_⟩
  · intro hmem
    rcases (mem_imagePartition nodes n).mp hmem with ⟨_, hflag⟩
    rw [hni] at hflag
    cases hflag
  · intro hmem
    rcases (mem_textPartition nodes n).mp hmem with ⟨_, hne2⟩
    exact hne2 hnt
  · rw [addNodes_ne env s nodes (List.ne_nil_of_mem hn),
      addNodes_ne env s (nodes.erase n) hrest, himgeq, htexteq]

/-- Witness for C10: a blank plain node in a two-node batch is dropped. -/
theorem c10_blank_node_dropped_witness :
    addNodesToIndex envTest stateEmpty [nodeHello, nodeBlank]
      = addNodesToIndex envTest stateEmpty ([nodeHello, nodeBlank].erase nodeBlank) :=
  (c10_blank_node_dropped envTest stateEmpty [nodeHello, nodeBlank] nodeBlank
    (by decide) (by decide) (by decide) (by decide)).2.2.2.2

/-- C6: Every node copy that the insertion mirrors — registered in the index
structure or upserted into the document store — carries a null embedding: the
mirror-write events of every run mention only embedding-free copies, and every
document-store entry after a run was either already present or is
embedding-free, for every environment, starting state and batch. -/
theorem c6_mirrored_copies_embedding_free (env : Env) (s : IndexState) (nodes : List Node) :
    (∀ ev ∈ (addNodesToIndex env s nodes).trace, embeddingFreeEvent ev) ∧
    (∀ m ∈ (addNodesToIndex env s nodes).state.docstore,
      m ∈ s.docstore ∨ m.embedding = none) := by
  by_cases hne : nodes = []
  · subst hne
    rw [addNodes_nil env s]
    exact ⟨fun ev hev => (nomatch hev), fun m hm => Or.inl hm⟩
  · rw [addNodes_ne env s nodes hne]
    rcases ht : getNodeWithEmbedding env.textEmbed (textPartition nodes) with _ | embTexts
    · rw [runBody_textFail env s _ _ ht]
      constructor
      · intro ev hev
        simp only [List.mem_cons, List.not_mem_nil, or_false] at hev
        subst hev
        trivial
      · intro m hm
        exact Or.inl hm
    · rcases hi : getNodeWithEmbedding env.imageEmbed (imagePartition nodes) with _ | embImgs
      · rw [runBody_imageFail env s _ _ embTexts ht hi]
        constructor
        · intro ev hev
          simp only [List.mem_cons, List.not_mem_nil, or_false] at hev
          rcases hev with h | h | h <;> subst h <;> trivial
        · intro m hm
          exact Or.inl hm
      · rw [runBody_ok env s _ _ embTexts embImgs ht hi]
        by_cases hc : mirrorCond s = true
        · rw [if_pos hc]
          constructor
          · intro ev hev
            rcases List.mem_append.mp hev with h | h
            · simp only [List.mem_cons, List.not_mem_nil, or_false] at h
              rcases h with h | h | h | h <;> subst h <;> trivial
            · exact expectedMirror_embFree _ ev h
          · intro m hm
            rcases mirrorFold_docstore_mem _ _ m hm with h | ⟨p, _, rfl⟩
            · exact Or.inl h
            · exact Or.inr rfl
        · rw [if_neg hc]
          constructor
          · intro ev hev
            simp only [List.mem_cons, List.not_mem_nil, or_false] at hev
            rcases hev with h | h | h | h <;> subst h <;> trivial
          · intro m hm
            exact Or.inl hm

/-- Witness for C6 at a concrete run and document-store member. -/
theorem c6_mirrored_copies_embedding_free_witness :
    nodeHello.stripEmb ∈ stateEmpty.docstore ∨ nodeHello.stripEmb.embedding = none :=
  (c6_mirrored_copies_embedding_free envTest stateEmpty [nodeHello, nodeCat]).2
    nodeHello.stripEmb (by decide)

/-- C2: The image partition holds exactly the image-bearing nodes and the
text partition exactly the nodes with non-empty text, so a node with both an
image payload and non-empty text is in both; on a successful run such a node
is persisted to the primary store embedded by the text embedder and to the
image-namespace store embedded by the image embedder. -/
theorem c2_partition_and_dual_persist (env : Env) (s : IndexState) (nodes : List Node)
    (n : Node) (tm im : List (NodeId × Embedding)) (embTexts embImgs : List Node)
    (htm : env.textEmbed (textPartition nodes) = some tm)
    (hat : attachEmbeddings tm (textPartition nodes) = some embTexts)
    (him : env.imageEmbed (imagePartition nodes) = some im)
    (hai : attachEmbeddings im (imagePartition nodes) = some embImgs)
    (hn : n ∈ nodes) (himg : n.isImageNode = true) (htxt : n.text ≠ "") :
    (∀ m, m ∈ imagePartition nodes ↔ m ∈ nodes ∧ m.isImageNode = true) ∧
    (∀ m, m ∈ textPartition nodes ↔ m ∈ nodes ∧ m.text ≠ "") ∧
    (∃ e, lookupEmb tm n.nodeId = some e ∧
      n.setEmb e ∈ (addNodesToIndex env s nodes).state.primaryStore.entries) ∧
    (∃ e, lookupEmb im n.nodeId = some e ∧
      n.setEmb e ∈ (addNodesToIndex env s nodes).state.imageStore.entries) := by
  have hne : nodes ≠ [] := List.ne_nil_of_mem hn
  have ht : getNodeWithEmbedding env.textEmbed (textPartition nodes) = some embTexts := by
    unfold getNodeWithEmbedding
    rw [htm]
    exact hat
  have hi : getNodeWithEmbedding env.imageEmbed (imagePartition nodes) = some embImgs := by
    unfold getNodeWithEmbedding
    rw [him]
    exact hai
  obtain ⟨hp, hq, _⟩ := addNodes_ok_state env s nodes embTexts embImgs hne ht hi
  refine ⟨fun m => mem_imagePartition nodes m, fun m => mem_textPartition nodes m, ?_, ?_⟩
  · have hmemtp : n ∈ textPartition nodes := (mem_textPartition nodes n).mpr ⟨hn, htxt⟩
    obtain ⟨e, he, hmem⟩ := attachEmbeddings_mem tm (textPartition nodes) embTexts hat n hmemtp
    exact ⟨e, he, by rw [hp]; exact List.mem_append.mpr (Or.inr hmem)⟩
  · have hmemip : n ∈ imagePartition nodes := (mem_imagePartition nodes n).mpr ⟨hn, himg⟩
    obtain ⟨e, he, hmem⟩ := attachEmbeddings_mem im (imagePartition nodes) embImgs hai n hmemip
    exact ⟨e, he, by rw [hq]; exact List.mem_append.mpr (Or.inr hmem)⟩

/-- The embedding map the test text embedder returns on the test batch. -/
def tmTest : List (NodeId × Embedding) := [("a", [1]), ("b", [1])]

/-- The embedding map the test image embedder returns on the test batch. -/
def imTest : List (NodeId × Embedding) := [("b", [2])]

/-- Witness for C2: the captioned image node reaches the image store with the
image embedding. -/
theorem c2_partition_and_dual_persist_witness :
    ∃ e, lookupEmb imTest nodeCat.nodeId = some e ∧
      nodeCat.setEmb e
        ∈ (addNodesToIndex envTest stateEmpty [nodeHello, nodeCat]).state.imageStore.entries :=
  (c2_partition_and_dual_persist envTest stateEmpty [nodeHello, nodeCat] nodeCat
    tmTest imTest embTextsTest embImgsTest (by decide) (by decide) (by decide) (by decide)
    (by decide) (by decide) (by decide)).2.2.2

/-- C3: On a successful run, the index structure and document store change
only when the primary store does not retain text or the override is set; when
that condition holds, every (node, store-assigned id) pair across both
partitions is registered in the index structure and upserted into the document
store (one registration event and one upsert event per pair); when it does not
hold, no mirror write happens at all; and given the store contract (one id per
node, in order) the pair list is the positional per-store pairing. -/
theorem c3_mirroring_condition (env : Env) (s : IndexState) (nodes : List Node)
    (embTexts embImgs : List Node)
    (hne : nodes ≠ [])
    (ht : getNodeWithEmbedding env.textEmbed (textPartition nodes) = some embTexts)
    (hi : getNodeWithEmbedding env.imageEmbed (imagePartition nodes) = some embImgs) :
    ((addNodesToIndex env s nodes).state.docstore ≠ s.docstore ∨
        (addNodesToIndex env s nodes).state.indexStruct ≠ s.indexStruct →
      mirrorCond s = true) ∧
    (mirrorCond s = true →
      ∀ p ∈ (embTexts ++ embImgs).zip
          (env.assignIds defaultStoreName embTexts ++ env.assignIds imageNamespace embImgs),
        Event.indexAdd p.1.stripEmb p.2 ∈ (addNodesToIndex env s nodes).trace ∧
        Event.docAdd p.1.stripEmb ∈ (addNodesToIndex env s nodes).trace) ∧
    (mirrorCond s = false →
      mirrorWrites (addNodesToIndex env s nodes).trace = [] ∧
      (addNodesToIndex env s nodes).state.docstore = s.docstore ∧
      (addNodesToIndex env s nodes).state.indexStruct = s.indexStruct) ∧
    (embTexts.length = (env.assignIds defaultStoreName embTexts).length →
      (embTexts ++ embImgs).zip
          (env.assignIds defaultStoreName embTexts ++ env.assignIds imageNamespace embImgs)
        = embTexts.zip (env.assignIds defaultStoreName embTexts)
          ++ embImgs.zip (env.assignIds imageNamespace embImgs)) := by
  rw [addNodes_ne env s nodes hne, runBody_ok env s _ _ embTexts embImgs ht hi]
  by_cases hc : mirrorCond s = true
  · rw [if_pos hc]
    refine ⟨fun _ => hc, ?_, ?_, ?_⟩
    · intro _ p hp
      have hm := expectedMirror_mem _ p hp
      exact ⟨List.mem_append.mpr (Or.inr hm.1), List.mem_append.mpr (Or.inr hm.2)⟩
    · intro hfalse
      rw [hc] at hfalse
      simp at hfalse
    · intro hlen
      exact List.zip_append hlen
  · rw [if_neg hc]
    refine ⟨?_, ?_, ?_, ?_⟩
    · intro hchange
      rcases hchange with h | h
      · exact absurd rfl h
      · exact absurd rfl h
    · intro htrue
      exact absurd htrue hc
    · intro _
      exact ⟨rfl, rfl, rfl⟩
    · intro hlen
      exact List.zip_append hlen

/-- Witness for C3: the first mirrored pair of the test run produces its
registration and upsert events. -/
theorem c3_mirroring_condition_witness :
    Event.indexAdd (nodeHello.setEmb [1]).stripEmb "a"
        ∈ (addNodesToIndex envTest stateEmpty [nodeHello, nodeCat]).trace ∧
    Event.docAdd (nodeHello.setEmb [1]).stripEmb
        ∈ (addNodesToIndex envTest stateEmpty [nodeHello, nodeCat]).trace :=
  (c3_mirroring_condition envTest stateEmpty [nodeHello, nodeCat] embTextsTest embImgsTest
    (by decide) (by decide) (by decide)).2.1 rfl
    (nodeHello.setEmb [1], "a") (by decide)

/-- C4 counterexample: with a batch of one text node and one captioned image
node and an environment whose image embedding raises, the run fails AND the
primary vector store has already been mutated — refuting the claim that either
both partitions are fully processed or the call fails before mutating any
store. -/
theorem c4_no_partial_counterexample :
    ¬((addNodesToIndex envImageFail stateEmpty [nodeHello, nodeCat]).error = none ∨
      (addNodesToIndex envImageFail stateEmpty [nodeHello, nodeCat]).state.primaryStore
        = stateEmpty.primaryStore) := by
  decide

/-- C4 amended: a text-embedding failure aborts before any mutation; an
image-embedding failure aborts before the image store, index structure or
document store are touched, but after the text partition has already been
persisted to the primary store; on success both partitions are fully embedded
and persisted to their respective stores. -/
theorem c4_partial_failure_window (env : Env) (s : IndexState) (nodes : List Node) :
    ((addNodesToIndex env s nodes).error = some InsertError.textEmbedFailed →
      (addNodesToIndex env s nodes).state = s) ∧
    ((addNodesToIndex env s nodes).error = some InsertError.imageEmbedFailed →
      (addNodesToIndex env s nodes).state.imageStore = s.imageStore ∧
      (addNodesToIndex env s nodes).state.indexStruct = s.indexStruct ∧
      (addNodesToIndex env s nodes).state.docstore = s.docstore ∧
      ∃ embTexts,
        getNodeWithEmbedding env.textEmbed (textPartition nodes) = some embTexts ∧
        (addNodesToIndex env s nodes).state.primaryStore = s.primaryStore.add embTexts) ∧
    ((addNodesToIndex env s nodes).error = none →
      nodes = [] ∨
      ∃ embTexts embImgs,
        getNodeWithEmbedding env.textEmbed (textPartition nodes) = some embTexts ∧
        getNodeWithEmbedding env.imageEmbed (imagePartition nodes) = some embImgs ∧
        (addNodesToIndex env s nodes).state.primaryStore.entries
          = s.primaryStore.entries ++ embTexts ∧
        (addNodesToIndex env s nodes).state.imageStore.entries
          = s.imageStore.entries ++ embImgs) := by
  by_cases hne : nodes = []
  · subst hne
    rw [addNodes_nil env s]
    exact ⟨fun h => (nomatch h), fun h => (nomatch h), fun _ => Or.inl rfl⟩
  · have hgoal := addNodes_ne env s nodes hne
    rcases ht : getNodeWithEmbedding env.textEmbed (textPartition nodes) with _ | embTexts
    · rw [hgoal, runBody_textFail env s _ _ ht]
      exact ⟨fun _ => rfl, fun h => (nomatch h), fun h => (nomatch h)⟩
    · rcases hi : getNodeWithEmbedding env.imageEmbed (imagePartition nodes) with _ | embImgs
      · rw [hgoal, runBody_imageFail env s _ _ embTexts ht hi]
        exact ⟨fun h => (nomatch h), fun _ => ⟨rfl, rfl, rfl, embTexts, rfl, rfl⟩,
          fun h => (nomatch h)⟩
      · have hok := addNodes_ok_state env s nodes embTexts embImgs hne ht hi
        rw [hgoal, runBody_ok env s _ _ embTexts embImgs ht hi] at hok ⊢
        by_cases hc : mirrorCond s = true
        · rw [if_pos hc] at hok ⊢
          exact ⟨fun h => (nomatch h), fun h => (nomatch h),
            fun _ => Or.inr ⟨embTexts, embImgs, rfl, rfl, hok.1, hok.2.1⟩⟩
        · rw [if_neg hc] at hok ⊢
          exact ⟨fun h => (nomatch h), fun h => (nomatch h),
            fun _ => Or.inr ⟨embTexts, embImgs, rfl, rfl, hok.1, hok.2.1⟩⟩

/-- Witness for C4 amended at the image-embedding-failure window. -/
theorem c4_partial_failure_window_witness :
    (addNodesToIndex envImageFail stateEmpty [nodeHello, nodeCat]).state.imageStore
        = stateEmpty.imageStore ∧
    (addNodesToIndex envImageFail stateEmpty [nodeHello, nodeCat]).state.indexStruct
        = stateEmpty.indexStruct ∧
    (addNodesToIndex envImageFail stateEmpty [nodeHello, nodeCat]).state.docstore
        = stateEmpty.docstore ∧
    ∃ embTexts,
      getNodeWithEmbedding envImageFail.textEmbed (textPartition [nodeHello, nodeCat])
          = some embTexts ∧
      (addNodesToIndex envImageFail stateEmpty [nodeHello, nodeCat]).state.primaryStore
        = stateEmpty.primaryStore.add embTexts :=
  (c4_partial_failure_window envImageFail stateEmpty [nodeHello, nodeCat]).2.1 (by decide)
